import Mathlib

/-!
Verification development for the SustainaMine LCA estimator
(`applications.py`).  The estimator is the `run_button` block of the
script: a pure computation from eight form inputs and a constant table
(`default_factors`) to a bundle of scalar outputs, a compliance-flag
list and a recommendation list.  Python floats are modelled as exact
rationals (ℚ); the integer-valued form fields (slider and the two
number inputs) are modelled as ℕ.
-/

namespace LCA

/-- Metal selectbox: "Aluminium" or "Copper". -/
inductive Metal
  | Aluminium
  | Copper
deriving DecidableEq, Repr

/-- Production route selectbox: "Virgin/Raw", "Recycled" or "Mixed". -/
inductive Route
  | Virgin
  | Recycled
  | Mixed
deriving DecidableEq, Repr

/-- Energy source selectbox: "Coal-based grid", "Mixed grid" or "Renewable-heavy". -/
inductive Energy
  | CoalGrid
  | MixedGrid
  | RenewableHeavy
deriving DecidableEq, Repr

/-- End-of-life selectbox: "Landfill", "Recycling" or "Reuse". -/
inductive Eol
  | Landfill
  | Recycling
  | Reuse
deriving DecidableEq, Repr

/-- Storage selectbox: "Proper authorized storage", "Temporary open storage"
or "Untreated disposal". -/
inductive Storage
  | Authorized
  | TemporaryOpen
  | Untreated
deriving DecidableEq, Repr

/-- The `default_factors` dictionary of the script. -/
structure Factors where
  aluminium_virgin_kgco2_per_kg : ℚ
  aluminium_recycled_kgco2_per_kg : ℚ
  copper_virgin_kgco2_per_kg : ℚ
  copper_recycled_kgco2_per_kg : ℚ
  red_mud_t_per_t_aluminium : ℚ
  so2_kg_per_t_copper : ℚ
  transport_kgco2_per_tkm : ℚ
  recycle_cost_usd_per_t_aluminium : ℚ
  recycle_cost_usd_per_t_copper : ℚ
deriving DecidableEq, Repr

/-- The concrete values assigned to `default_factors` in the script. -/
def default_factors : Factors where
  aluminium_virgin_kgco2_per_kg := 16.0
  aluminium_recycled_kgco2_per_kg := 4.0
  copper_virgin_kgco2_per_kg := 8.0
  copper_recycled_kgco2_per_kg := 2.0
  red_mud_t_per_t_aluminium := 1.5
  so2_kg_per_t_copper := 25.0
  transport_kgco2_per_tkm := 0.05
  recycle_cost_usd_per_t_aluminium := 200.0
  recycle_cost_usd_per_t_copper := 300.0

/-- One form submission.  Streamlit guarantees `recycled_pct ∈ [0,100]`
(slider), `transport_km ∈ [0,5000]` and `transport_tonnes ∈ [1,10000]`
(number inputs with integer bounds); all three are ints at runtime. -/
structure Input where
  metal : Metal
  production_route : Route
  recycled_pct : ℕ
  energy_source : Energy
  transport_km : ℕ
  transport_tonnes : ℕ
  eol_option : Eol
  storage_practice : Storage
deriving DecidableEq, Repr

/-- Baseline CO2 per kg chosen by the nested `if metal == ... if
production_route == ...` branches of the script. -/
def baseline (f : Factors) (m : Metal) (r : Route) (recycled_pct : ℕ) : ℚ :=
  match m, r with
  | .Aluminium, .Virgin => f.aluminium_virgin_kgco2_per_kg
  | .Aluminium, .Recycled => f.aluminium_recycled_kgco2_per_kg
  | .Aluminium, .Mixed =>
      f.aluminium_virgin_kgco2_per_kg * (100 - (recycled_pct : ℚ)) / 100
        + f.aluminium_recycled_kgco2_per_kg * (recycled_pct : ℚ) / 100
  | .Copper, .Virgin => f.copper_virgin_kgco2_per_kg
  | .Copper, .Recycled => f.copper_recycled_kgco2_per_kg
  | .Copper, .Mixed =>
      f.copper_virgin_kgco2_per_kg * (100 - (recycled_pct : ℚ)) / 100
        + f.copper_recycled_kgco2_per_kg * (recycled_pct : ℚ) / 100

/-- Red mud: set in the Aluminium branch as ratio times tonnes, `0` in the
Copper branch. -/
def red_mud_t (f : Factors) (m : Metal) (transport_tonnes : ℕ) : ℚ :=
  match m with
  | .Aluminium => f.red_mud_t_per_t_aluminium * (transport_tonnes : ℚ)
  | .Copper => 0

/-- Energy adjustment branch of the script. -/
def energy_factor_multiplier : Energy → ℚ
  | .CoalGrid => 1.2
  | .MixedGrid => 1.0
  | .RenewableHeavy => 0.8

/-- The script's `kgco2_per_kg = baseline * energy_factor_multiplier`. -/
def kgco2_per_kg (f : Factors) (m : Metal) (r : Route) (p : ℕ) (e : Energy) : ℚ :=
  baseline f m r p * energy_factor_multiplier e

/-- The conditional expression `(transport_tonnes if transport_tonnes>0 else 1)`
guarding only the inner ratio of `transport_emission_per_kg`. -/
def transport_inner_guard (transport_tonnes : ℕ) : ℚ :=
  if 0 < transport_tonnes then (transport_tonnes : ℚ) else 1

/-- The script's per-kg transport expression: constant times km times
`tonnes / guard`, all divided by `tonnes` (this final division is outside
the guard). -/
def transport_emission_per_kg (f : Factors) (transport_km transport_tonnes : ℕ) : ℚ :=
  f.transport_kgco2_per_tkm * (transport_km : ℚ)
    * ((transport_tonnes : ℚ) / transport_inner_guard transport_tonnes)
    / (transport_tonnes : ℚ)

/-- The script's `transport_kgco2_per_ton = constant * transport_km`. -/
def transport_kgco2_per_ton (f : Factors) (transport_km : ℕ) : ℚ :=
  f.transport_kgco2_per_tkm * (transport_km : ℚ)

/-- The script's `total_co2_per_tonne = kgco2_per_kg*1000 + transport_kgco2_per_ton`. -/
def total_co2_per_tonne (f : Factors) (m : Metal) (r : Route) (p : ℕ) (e : Energy)
    (transport_km : ℕ) : ℚ :=
  kgco2_per_kg f m r p e * 1000 + transport_kgco2_per_ton f transport_km

/-- Circularity block: `recycled_pct * 0.5`, then the `if/elif` bonus,
then `min(100, ...)`. -/
def circularity (recycled_pct : ℕ) (eol_option : Eol) : ℚ :=
  let c : ℚ := (recycled_pct : ℚ) * 0.5
  let c : ℚ :=
    match eol_option with
    | .Recycling => c + 30
    | .Reuse => c + 40
    | .Landfill => c
  min 100 c

/-- SO2 block: initialised to `0`, overwritten only in the Copper branch. -/
def so2_kg_total (f : Factors) (m : Metal) (transport_tonnes : ℕ) : ℚ :=
  match m with
  | .Copper => f.so2_kg_per_t_copper * (transport_tonnes : ℚ)
  | .Aluminium => 0

/-- Recycle-cost block of the script (`metal` only takes the two listed
values, so the trailing `else: recycle_cost = 0` is unreachable). -/
def recycle_cost (f : Factors) (m : Metal) (transport_tonnes : ℕ) : ℚ :=
  match m with
  | .Aluminium => f.recycle_cost_usd_per_t_aluminium * (transport_tonnes : ℚ)
  | .Copper => f.recycle_cost_usd_per_t_copper * (transport_tonnes : ℚ)

/-- Flag tuple appended when `storage_practice != "Proper authorized storage"`. -/
def storage_flag : String × String :=
  ("Storage practice",
   "⚠️ Not authorized/temporary storage — requires review under Hazardous & Other Wastes Rules (2016)")

/-- Flag tuple appended when `metal == "Aluminium" and red_mud_t > 0`. -/
def red_mud_flag : String × String :=
  ("Red mud handling",
   "ℹ️ Red mud generation flagged — follow CPCB Guidelines for Handling & Management of Red Mud")

/-- Flag tuple appended when `metal == "Copper" and so2_kg_total > 0`. -/
def air_flag : String × String :=
  ("Air emissions",
   "ℹ️ SO₂ emissions estimated — recommend gas capture & conversion to sulfuric acid; ensure air emission controls")

/-- Flag tuple appended when `circularity < 40`. -/
def circ_flag : String × String :=
  ("Circularity",
   "⚠️ Low circularity score — consider increasing recycled input or recycling infrastructure")

/-- Compliance-flag block: four independent conditional appends to `flags`,
in the script's order. -/
def flags (storage_practice : Storage) (m : Metal)
    (red_mud so2 circ : ℚ) : List (String × String) :=
  (if storage_practice ≠ Storage.Authorized then [storage_flag] else [])
    ++ (if m = Metal.Aluminium ∧ 0 < red_mud then [red_mud_flag] else [])
    ++ (if m = Metal.Copper ∧ 0 < so2 then [air_flag] else [])
    ++ (if circ < 40 then [circ_flag] else [])

/-- First recommendation string appended by the script. -/
def rec_feedstock : String :=
  "Increase recycled feedstock where feasible — reduces primary extraction & supports National Mineral Policy objectives."

/-- Second recommendation string appended by the script. -/
def rec_red_mud : String :=
  "Invest in RED MUD neutralization & valorization (cement substitution/pigments/REE recovery) — follow CPCB technical guidelines."

/-- Recommendation string appended only when `metal == "Copper"`. -/
def rec_so2_capture : String :=
  "Install SO₂ capture + contact process to convert to sulphuric acid and supply local fertilizer/chemical plants."

/-- Closing recommendation string appended by the script. -/
def rec_engage : String :=
  "Engage with local SPCB/CPCB for authorization and safe handling steps (the tool generates a compliance checklist)."

/-- Recommendation block: four sequential appends, the third conditional on
the metal. -/
def recs (m : Metal) : List String :=
  let l : List String := []
  let l := l ++ [rec_feedstock]
  let l := l ++ [rec_red_mud]
  let l := if m = Metal.Copper then l ++ [rec_so2_capture] else l
  l ++ [rec_engage]

/-- Everything the `run_button` block computes from one submission. -/
structure Output where
  kgco2_per_kg : ℚ
  transport_emission_per_kg : ℚ
  transport_kgco2_per_ton : ℚ
  total_co2_per_tonne : ℚ
  circularity : ℚ
  red_mud_t : ℚ
  so2_kg_total : ℚ
  recycle_cost : ℚ
  flags : List (String × String)
  recs : List String
deriving DecidableEq, Repr

/-- The whole `run_button` block as one pure function of the submitted
input, over the script's `default_factors`. -/
def runEstimator (i : Input) : Output where
  kgco2_per_kg :=
    kgco2_per_kg default_factors i.metal i.production_route i.recycled_pct i.energy_source
  transport_emission_per_kg :=
    transport_emission_per_kg default_factors i.transport_km i.transport_tonnes
  transport_kgco2_per_ton := transport_kgco2_per_ton default_factors i.transport_km
  total_co2_per_tonne :=
    total_co2_per_tonne default_factors i.metal i.production_route i.recycled_pct
      i.energy_source i.transport_km
  circularity := circularity i.recycled_pct i.eol_option
  red_mud_t := red_mud_t default_factors i.metal i.transport_tonnes
  so2_kg_total := so2_kg_total default_factors i.metal i.transport_tonnes
  recycle_cost := recycle_cost default_factors i.metal i.transport_tonnes
  flags :=
    flags i.storage_practice i.metal
      (red_mud_t default_factors i.metal i.transport_tonnes)
      (so2_kg_total default_factors i.metal i.transport_tonnes)
      (circularity i.recycled_pct i.eol_option)
  recs := recs i.metal

/-! Spec-side definitions, written from the specification's wording, to be
compared with the script-side definitions above. -/

/-- Spec wording: "the metal's virgin constant". -/
def spec_virgin : Metal → ℚ
  | .Aluminium => 16.0
  | .Copper => 8.0

/-- Spec wording: "the metal's recycled constant". -/
def spec_recycled : Metal → ℚ
  | .Aluminium => 4.0
  | .Copper => 2.0

/-- Spec wording for the baseline: virgin constant for Virgin, recycled
constant for Recycled, interpolation
`virgin[metal]*(100-recycled_pct)/100 + recycled[metal]*recycled_pct/100`
for Mixed. -/
def spec_baseline (m : Metal) (r : Route) (p : ℕ) : ℚ :=
  match r with
  | .Virgin => spec_virgin m
  | .Recycled => spec_recycled m
  | .Mixed =>
      spec_virgin m * (100 - (p : ℚ)) / 100 + spec_recycled m * (p : ℚ) / 100

/-- Spec wording: "CoalGrid→1.2, MixedGrid→1.0, RenewableHeavy→0.8". -/
def spec_multiplier : Energy → ℚ
  | .CoalGrid => 1.2
  | .MixedGrid => 1.0
  | .RenewableHeavy => 0.8

/-- Spec wording: flat bonus of 30 for Recycling, 40 for Reuse, none
otherwise. -/
def spec_eol_bonus : Eol → ℚ
  | .Recycling => 30
  | .Reuse => 40
  | .Landfill => 0

/-- C1: for every input, the per-kg CO2e output equals the route baseline
(virgin constant / recycled constant / linear interpolation, as the spec
states it) times the energy multiplier (1.2 / 1.0 / 0.8). -/
theorem kgco2_per_kg_matches_spec (i : Input) :
    (runEstimator i).kgco2_per_kg
      = spec_baseline i.metal i.production_route i.recycled_pct
          * spec_multiplier i.energy_source := by
  obtain ⟨m, r, p, e, km, t, eol, s⟩ := i
  cases m <;> cases r <;> cases e <;>
    simp [runEstimator, kgco2_per_kg, baseline, energy_factor_multiplier,
      spec_baseline, spec_virgin, spec_recycled, spec_multiplier, default_factors]

/-- C2: the total per-tonne figure is exactly `co2_per_kg*1000 +
transport_km*0.05`, and neither the transport-per-tonne figure nor the
total changes when only `transport_tonnes` changes. -/
theorem total_co2_per_tonne_spec (i : Input) (t : ℕ) :
    (runEstimator i).total_co2_per_tonne
        = (runEstimator i).kgco2_per_kg * 1000 + (i.transport_km : ℚ) * 0.05
      ∧ (runEstimator { i with transport_tonnes := t }).transport_kgco2_per_ton
        = (runEstimator i).transport_kgco2_per_ton
      ∧ (runEstimator { i with transport_tonnes := t }).total_co2_per_tonne
        = (runEstimator i).total_co2_per_tonne := by
  refine ⟨?_, rfl, rfl⟩
  simp [runEstimator, total_co2_per_tonne, transport_kgco2_per_ton, default_factors]
  ring

/-- Helper: the circularity block equals a clamped affine form of the
recycled percentage and the end-of-life bonus. -/
theorem circularity_eq (p : ℕ) (e : Eol) :
    circularity p e = min 100 ((p : ℚ) * 0.5 + spec_eol_bonus e) := by
  cases e <;> simp [circularity, spec_eol_bonus]

/-- C3: the circularity score is `min(100, recycled_pct*0.5 + bonus)` with
bonus 30 for Recycling, 40 for Reuse, 0 otherwise, and it lies in
`[0, 100]`. -/
theorem circularity_in_range (p : ℕ) (e : Eol) (hp : p ≤ 100) :
    circularity p e = min 100 ((p : ℚ) * 0.5 + spec_eol_bonus e)
      ∧ 0 ≤ circularity p e ∧ circularity p e ≤ 100 := by
  refine ⟨circularity_eq p e, ?_, ?_⟩
  · rw [circularity_eq]
    refine le_min (by norm_num) ?_
    have h0 : (0:ℚ) ≤ (p:ℚ) := Nat.cast_nonneg p
    cases e <;> simp [spec_eol_bonus] <;> nlinarith
  · rw [circularity_eq]
    exact min_le_left _ _

/-- Witness for C3 at `recycled_pct = 30`, `eol = Recycling`. -/
theorem circularity_in_range_witness :
    (30:ℕ) ≤ 100
      ∧ (circularity 30 Eol.Recycling
            = min 100 (((30:ℕ) : ℚ) * 0.5 + spec_eol_bonus Eol.Recycling)
          ∧ 0 ≤ circularity 30 Eol.Recycling ∧ circularity 30 Eol.Recycling ≤ 100) :=
  ⟨by norm_num, circularity_in_range 30 Eol.Recycling (by norm_num)⟩

/-- C4: with `transport_tonnes ≥ 1`, exactly one by-product is nonzero,
chosen by the metal: Aluminium yields positive red mud and zero SO2,
Copper yields positive SO2 and zero red mud. -/
theorem byproduct_exclusivity (i : Input) (ht : 1 ≤ i.transport_tonnes) :
    (i.metal = Metal.Aluminium →
        (runEstimator i).red_mud_t
            = default_factors.red_mud_t_per_t_aluminium * (i.transport_tonnes : ℚ)
          ∧ 0 < (runEstimator i).red_mud_t
          ∧ (runEstimator i).so2_kg_total = 0)
      ∧ (i.metal = Metal.Copper →
        (runEstimator i).so2_kg_total
            = default_factors.so2_kg_per_t_copper * (i.transport_tonnes : ℚ)
          ∧ 0 < (runEstimator i).so2_kg_total
          ∧ (runEstimator i).red_mud_t = 0) := by
  obtain ⟨m, r, p, e, km, t, eol, s⟩ := i
  have ht0 : (0:ℚ) < (t:ℚ) := by exact_mod_cast Nat.lt_of_lt_of_le Nat.zero_lt_one ht
  cases m with
  | Aluminium =>
      refine ⟨fun _ => ⟨rfl, ?_, rfl⟩, fun h => Metal.noConfusion h⟩
      show 0 < red_mud_t default_factors Metal.Aluminium t
      simp only [red_mud_t, default_factors]
      nlinarith
  | Copper =>
      refine ⟨fun h => Metal.noConfusion h, fun _ => ⟨rfl, ?_, rfl⟩⟩
      show 0 < so2_kg_total default_factors Metal.Copper t
      simp only [so2_kg_total, default_factors]
      nlinarith

/-- Witness for C4 at a concrete Aluminium input with 2 tonnes. -/
theorem byproduct_exclusivity_witness :
    1 ≤ (Input.mk Metal.Aluminium Route.Virgin 0 Energy.MixedGrid 0 2
          Eol.Landfill Storage.Authorized).transport_tonnes
      ∧ ((Input.mk Metal.Aluminium Route.Virgin 0 Energy.MixedGrid 0 2
              Eol.Landfill Storage.Authorized).metal = Metal.Aluminium →
          (runEstimator (Input.mk Metal.Aluminium Route.Virgin 0 Energy.MixedGrid 0 2
              Eol.Landfill Storage.Authorized)).red_mud_t
              = default_factors.red_mud_t_per_t_aluminium
                  * ((Input.mk Metal.Aluminium Route.Virgin 0 Energy.MixedGrid 0 2
                      Eol.Landfill Storage.Authorized).transport_tonnes : ℚ)
            ∧ 0 < (runEstimator (Input.mk Metal.Aluminium Route.Virgin 0 Energy.MixedGrid 0 2
                Eol.Landfill Storage.Authorized)).red_mud_t
            ∧ (runEstimator (Input.mk Metal.Aluminium Route.Virgin 0 Energy.MixedGrid 0 2
                Eol.Landfill Storage.Authorized)).so2_kg_total = 0)
      ∧ ((Input.mk Metal.Aluminium Route.Virgin 0 Energy.MixedGrid 0 2
              Eol.Landfill Storage.Authorized).metal = Metal.Copper →
          (runEstimator (Input.mk Metal.Aluminium Route.Virgin 0 Energy.MixedGrid 0 2
              Eol.Landfill Storage.Authorized)).so2_kg_total
              = default_factors.so2_kg_per_t_copper
                  * ((Input.mk Metal.Aluminium Route.Virgin 0 Energy.MixedGrid 0 2
                      Eol.Landfill Storage.Authorized).transport_tonnes : ℚ)
            ∧ 0 < (runEstimator (Input.mk Metal.Aluminium Route.Virgin 0 Energy.MixedGrid 0 2
                Eol.Landfill Storage.Authorized)).so2_kg_total
            ∧ (runEstimator (Input.mk Metal.Aluminium Route.Virgin 0 Energy.MixedGrid 0 2
                Eol.Landfill Storage.Authorized)).red_mud_t = 0) := by
  refine ⟨by norm_num, ?_⟩
  exact byproduct_exclusivity _ (by norm_num)

/-- The example scenario of the specification. -/
def example_input : Input where
  metal := Metal.Aluminium
  production_route := Route.Mixed
  recycled_pct := 30
  energy_source := Energy.CoalGrid
  transport_km := 200
  transport_tonnes := 1
  eol_option := Eol.Recycling
  storage_practice := Storage.Authorized

/-- C5: on the example scenario (Aluminium, Mixed 30 percent, coal grid,
200 km, 1 tonne, Recycling, Authorized) the estimator yields 14.88 kg
CO2e per kg, 10 kg per tonne of transport, 14890 total, circularity 45,
1.5 t red mud, and exactly the red-mud advisory as its flag list. -/
theorem example_scenario_aluminium :
    (runEstimator example_input).kgco2_per_kg = 14.88
      ∧ (runEstimator example_input).transport_kgco2_per_ton = 10
      ∧ (runEstimator example_input).total_co2_per_tonne = 14890
      ∧ (runEstimator example_input).circularity = 45
      ∧ (runEstimator example_input).red_mud_t = 1.5
      ∧ (runEstimator example_input).flags = [red_mud_flag] := by
  refine ⟨?_, ?_, ?_, ?_, ?_, ?_⟩ <;>
    norm_num [runEstimator, example_input, kgco2_per_kg, baseline,
      energy_factor_multiplier, transport_kgco2_per_ton, total_co2_per_tonne,
      circularity, red_mud_t, so2_kg_total, flags, default_factors]

/-- C6: when the recycled constant is below the virgin constant, the
Mixed-route baseline is non-increasing in the recycled percentage. -/
theorem mixed_baseline_antitone (m : Metal) (p1 p2 : ℕ)
    (hc : spec_recycled m < spec_virgin m) (h12 : p1 ≤ p2) (h2 : p2 ≤ 100) :
    baseline default_factors m Route.Mixed p2 ≤ baseline default_factors m Route.Mixed p1 := by
  have h12q : (p1:ℚ) ≤ (p2:ℚ) := by exact_mod_cast h12
  cases m <;> simp only [baseline, default_factors] <;> nlinarith

/-- Witness for C6: Aluminium, percentages 10 and 20. -/
theorem mixed_baseline_antitone_witness :
    spec_recycled Metal.Aluminium < spec_virgin Metal.Aluminium
      ∧ (10:ℕ) ≤ 20 ∧ (20:ℕ) ≤ 100
      ∧ baseline default_factors Metal.Aluminium Route.Mixed 20
          ≤ baseline default_factors Metal.Aluminium Route.Mixed 10 :=
  ⟨by norm_num [spec_recycled, spec_virgin], by norm_num, by norm_num,
    mixed_baseline_antitone Metal.Aluminium 10 20
      (by norm_num [spec_recycled, spec_virgin]) (by norm_num) (by norm_num)⟩

/-- C7: with `transport_tonnes ≥ 1` the flag list is, in the fixed order,
the storage warning iff storage is not authorized, the red-mud advisory
iff the metal is Aluminium (its by-product condition always holds then),
the air-emissions advisory iff the metal is Copper, and the
low-circularity warning iff the score is below 40. -/
theorem flags_characterization (i : Input) (ht : 1 ≤ i.transport_tonnes) :
    (runEstimator i).flags =
      (if i.storage_practice ≠ Storage.Authorized then [storage_flag] else [])
        ++ (if i.metal = Metal.Aluminium then [red_mud_flag] else [])
        ++ (if i.metal = Metal.Copper then [air_flag] else [])
        ++ (if (runEstimator i).circularity < 40 then [circ_flag] else []) := by
  obtain ⟨m, r, p, e, km, t, eol, s⟩ := i
  have ht0 : (0:ℚ) < (t:ℚ) := by exact_mod_cast Nat.lt_of_lt_of_le Nat.zero_lt_one ht
  cases m with
  | Aluminium =>
      have hrm : 0 < default_factors.red_mud_t_per_t_aluminium * (t:ℚ) := by
        simp only [default_factors]
        nlinarith
      simp [runEstimator, flags, red_mud_t, so2_kg_total, hrm]
  | Copper =>
      have hso2 : 0 < default_factors.so2_kg_per_t_copper * (t:ℚ) := by
        simp only [default_factors]
        nlinarith
      simp [runEstimator, flags, red_mud_t, so2_kg_total, hso2]

/-- Witness for C7 at a concrete Copper input. -/
theorem flags_characterization_witness :
    1 ≤ (Input.mk Metal.Copper Route.Virgin 0 Energy.RenewableHeavy 0 5
          Eol.Landfill Storage.Untreated).transport_tonnes
      ∧ (runEstimator (Input.mk Metal.Copper Route.Virgin 0 Energy.RenewableHeavy 0 5
            Eol.Landfill Storage.Untreated)).flags =
          (if (Input.mk Metal.Copper Route.Virgin 0 Energy.RenewableHeavy 0 5
                Eol.Landfill Storage.Untreated).storage_practice ≠ Storage.Authorized
              then [storage_flag] else [])
            ++ (if (Input.mk Metal.Copper Route.Virgin 0 Energy.RenewableHeavy 0 5
                  Eol.Landfill Storage.Untreated).metal = Metal.Aluminium
                then [red_mud_flag] else [])
            ++ (if (Input.mk Metal.Copper Route.Virgin 0 Energy.RenewableHeavy 0 5
                  Eol.Landfill Storage.Untreated).metal = Metal.Copper
                then [air_flag] else [])
            ++ (if (runEstimator (Input.mk Metal.Copper Route.Virgin 0 Energy.RenewableHeavy 0 5
                  Eol.Landfill Storage.Untreated)).circularity < 40
                then [circ_flag] else []) :=
  ⟨by norm_num, flags_characterization _ (by norm_num)⟩

/-- C8: the recommendation list depends on the input only through the
metal: it is the fixed list of guidance strings, with the SO2-capture
entry inserted after the second fixed entry and before the closing entry
exactly when the metal is Copper. -/
theorem recs_structure (i : Input) :
    (runEstimator i).recs =
      if i.metal = Metal.Copper
        then [rec_feedstock, rec_red_mud, rec_so2_capture, rec_engage]
        else [rec_feedstock, rec_red_mud, rec_engage] := by
  obtain ⟨m, r, p, e, km, t, eol, s⟩ := i
  cases m <;> rfl

/-- C9: the estimator is deterministic — two invocations on equal inputs
produce equal output bundles (and, being a total function into `Output`,
it has no failure path on its domain). -/
theorem estimator_deterministic (i j : Input) (h : i = j) :
    runEstimator i = runEstimator j := by
  rw [h]

/-- Witness for C9 at a concrete Copper input. -/
theorem estimator_deterministic_witness :
    runEstimator (Input.mk Metal.Copper Route.Virgin 0 Energy.RenewableHeavy 0 5
        Eol.Landfill Storage.Untreated)
      = runEstimator (Input.mk Metal.Copper Route.Virgin 0 Energy.RenewableHeavy 0 5
        Eol.Landfill Storage.Untreated) :=
  estimator_deterministic _ _ rfl

/-- C10: with `transport_tonnes ≥ 1` both divisors of the per-kg transport
expression — the guarded inner one and the unguarded outer one — are
nonzero, and the expression reduces to constant times km over tonnes. -/
theorem transport_division_safe (t : ℕ) (ht : 1 ≤ t) :
    transport_inner_guard t ≠ 0 ∧ ((t:ℚ) ≠ 0)
      ∧ ∀ (f : Factors) (km : ℕ),
          transport_emission_per_kg f km t
            = f.transport_kgco2_per_tkm * (km : ℚ) / (t : ℚ) := by
  have ht0 : (0:ℚ) < (t:ℚ) := by exact_mod_cast Nat.lt_of_lt_of_le Nat.zero_lt_one ht
  have htn : (t:ℚ) ≠ 0 := ne_of_gt ht0
  have hg : transport_inner_guard t = (t:ℚ) := by
    simp [transport_inner_guard, Nat.lt_of_lt_of_le Nat.zero_lt_one ht]
  refine ⟨by rw [hg]; exact htn, htn, fun f km => ?_⟩
  rw [transport_emission_per_kg, hg, div_self htn, mul_one]

/-- Witness for C10 at one tonne. -/
theorem transport_division_safe_witness :
    (1:ℕ) ≤ 1
      ∧ (transport_inner_guard 1 ≠ 0 ∧ (((1:ℕ):ℚ) ≠ 0)
          ∧ ∀ (f : Factors) (km : ℕ),
              transport_emission_per_kg f km 1
                = f.transport_kgco2_per_tkm * (km : ℚ) / ((1:ℕ):ℚ)) :=
  ⟨le_refl 1, transport_division_safe 1 (le_refl 1)⟩

end LCA
